import Mathlib

/-!
Shallow embedding of the guardian-content-stream pipeline
(src/guardian_stream: models.py, guardian_client.py, publisher.py,
orchestrator.py, handler.py, cli.py) together with proofs about the
orchestration-and-reliability contract between the search step and the
publish step.

Python exceptions are embedded as an `Except` channel; external effects
(the HTTP provider, the Kinesis sink) are explicit function parameters,
and every function that performs such an effect also returns the list of
effect calls it issued, so that "never invoked" / "before any network
request" properties are statable.
-/

deriving instance DecidableEq for Except

namespace GuardianStream

/-- Python runtime values that can flow through the untyped entry points
(`event.get("search_term")`, `date_from` arguments).  `none` stands for
Python `None` (also the result of a missing event key); `pydate` and
`pydatetime` are `datetime.date` resp. `datetime.datetime` instances
(`datetime` is a subclass of `date` in Python, which `isinstanceDate`
reflects). -/
inductive PyVal where
  | none
  | str (s : String)
  | int (n : Int)
  | bool (b : Bool)
  | pydate (year month day : Nat)
  | pydatetime (year month day hour minute second : Nat)
deriving DecidableEq, Repr

/-- Python truthiness (`bool(x)`): `None` and empty / zero values are falsy. -/
def PyVal.truthy : PyVal → Bool
  | .none => false
  | .str s => s ≠ ""
  | .int n => n ≠ 0
  | .bool b => b
  | .pydate _ _ _ => true
  | .pydatetime _ _ _ _ _ _ => true

/-- Python `isinstance(x, datetime.date)`: true for `date` and for its
subclass `datetime`. -/
def PyVal.isinstanceDate : PyVal → Bool
  | .pydate _ _ _ => true
  | .pydatetime _ _ _ _ _ _ => true
  | _ => false

/-- Python `x is None`. -/
def PyVal.isNone : PyVal → Bool
  | .none => true
  | _ => false

/-- Zero-pad a numeral to two digits, as `datetime.isoformat` does. -/
def pad2 (n : Nat) : String :=
  if n < 10 then "0" ++ toString n else toString n

/-- Zero-pad a numeral to four digits (ISO year field). -/
def pad4 (n : Nat) : String :=
  if n < 10 then "000" ++ toString n
  else if n < 100 then "00" ++ toString n
  else if n < 1000 then "0" ++ toString n
  else toString n

/-- Python `date.isoformat()` / `datetime.isoformat()`: `YYYY-MM-DD` for a date,
`YYYY-MM-DDTHH:MM:SS` for a datetime (microseconds omitted).  Other values
never reach an `isoformat()` call in the embedded code. -/
def PyVal.isoformat : PyVal → String
  | .pydate y m d => pad4 y ++ "-" ++ pad2 m ++ "-" ++ pad2 d
  | .pydatetime y m d h mi s =>
      pad4 y ++ "-" ++ pad2 m ++ "-" ++ pad2 d ++ "T" ++
        pad2 h ++ ":" ++ pad2 mi ++ ":" ++ pad2 s
  | _ => ""

/-- Python `str(x)` for the values above. -/
def PyVal.pyStr : PyVal → String
  | .none => "None"
  | .str s => s
  | .int n => toString n
  | .bool b => if b then "True" else "False"
  | v => v.isoformat

/-- Python `str.strip()`: drop leading and trailing whitespace. -/
def pyStrip (s : String) : String :=
  String.mk (((s.data.dropWhile Char.isWhitespace).reverse.dropWhile
    Char.isWhitespace).reverse)

/-- The exception classes raised by the embedded code.
`rateLimitError` is a subclass of `GuardianAPIError` whose constructor
fixes `status_code = 429` (exceptions.py); `recordTooLargeError` is a
subclass of `PublisherError` whose constructor builds the message from
the record size (exceptions.py).  `validationError` stands for the pydantic
construction failure, `attributeError` for calling a `str` method on a
non-string. -/
inductive PyErr where
  | valueError (msg : String)
  | typeError (msg : String)
  | attributeError (msg : String)
  | guardianAPIError (msg : String) (status_code : Option Nat)
  | rateLimitError (msg : String)
  | publisherError (msg : String) (original_error : Option String)
  | recordTooLargeError (record_size : Nat)
  | validationError (msg : String)
deriving DecidableEq, Repr

/-- Python `isinstance(e, GuardianAPIError)` (covers the `RateLimitError`
subclass). -/
def PyErr.isGuardianAPIError : PyErr → Bool
  | .guardianAPIError _ _ => true
  | .rateLimitError _ => true
  | _ => false

/-- Attribute `e.status_code` for `GuardianAPIError` instances; a `RateLimitError`
is constructed with `status_code=429`. -/
def PyErr.status_code : PyErr → Option Nat
  | .guardianAPIError _ s => s
  | .rateLimitError _ => some 429
  | _ => Option.none

/-- Python `isinstance(e, PublisherError)` (covers the `RecordTooLargeError`
subclass). -/
def PyErr.isPublisherError : PyErr → Bool
  | .publisherError _ _ => true
  | .recordTooLargeError _ => true
  | _ => false

/-- Python `str(e)`: the message the exception was constructed with;
for `RecordTooLargeError` the message built by its constructor
(exceptions.py line 34). -/
def PyErr.str : PyErr → String
  | .valueError m => m
  | .typeError m => m
  | .attributeError m => m
  | .guardianAPIError m _ => m
  | .rateLimitError m => m
  | .publisherError m _ => m
  | .recordTooLargeError n =>
      "Record size " ++ toString n ++ " bytes exceeds maximum 1048576 bytes"
  | .validationError m => m

/-- Gregorian leap-year rule, used by `date.fromisoformat`. -/
def isLeapYear (y : Nat) : Bool :=
  (y % 4 = 0 && y % 100 ≠ 0) || y % 400 = 0

/-- Days in a month of the proleptic Gregorian calendar. -/
def daysInMonth (y m : Nat) : Nat :=
  if m = 2 then (if isLeapYear y then 29 else 28)
  else if m = 4 ∨ m = 6 ∨ m = 9 ∨ m = 11 then 30
  else 31

/-- Split a character list at every occurrence of `sep` (the list-level
analogue of `str.split(sep)`). -/
def splitOnChar (sep : Char) : List Char → List (List Char)
  | [] => [[]]
  | c :: rest =>
      match splitOnChar sep rest with
      | [] => [[]]
      | cur :: parts =>
          if c = sep then [] :: cur :: parts
          else (c :: cur) :: parts

/-- Numeric value of a digit sequence (codepoint 48 is `0`). -/
def digitsVal (l : List Char) : Nat :=
  l.foldl (fun acc c => acc * 10 + (c.toNat - 48)) 0

/-- A fixed-width all-digit field, as ISO date components require. -/
def digitField (l : List Char) (width : Nat) : Option Nat :=
  if l.length = width && l.all Char.isDigit then some (digitsVal l) else Option.none

/-- Python `datetime.date.fromisoformat`: strict `YYYY-MM-DD` with a real
calendar-date check; anything else (wrong separators, a time component,
out-of-range fields) is a `ValueError`, modelled as `none`.
Codepoint 45 is the `-` separator. -/
def parseISODate (s : String) : Option (Nat × Nat × Nat) :=
  match splitOnChar (Char.ofNat 45) s.data with
  | [ys, ms, ds] => do
      let y ← digitField ys 4
      let m ← digitField ms 2
      let d ← digitField ds 2
      if 1 ≤ m && m ≤ 12 && 1 ≤ d && d ≤ daysInMonth y m then
        pure (y, m, d)
      else
        Option.none
  | _ => Option.none

/-- An `HH:MM:SS` time component (codepoint 58 is `:`). -/
def parseISOTime (l : List Char) : Option (Nat × Nat × Nat) :=
  match splitOnChar (Char.ofNat 58) l with
  | [hs, ms, ss] => do
      let h ← digitField hs 2
      let mi ← digitField ms 2
      let sec ← digitField ss 2
      if h ≤ 23 && mi ≤ 59 && sec ≤ 59 then pure (h, mi, sec) else Option.none
  | _ => Option.none

/-- Order-preserving encoding of a calendar instant as a single numeral;
the fields stay within their ranges, so lexicographic comparison of
instants agrees with numeric comparison of codes. -/
def encodeInstant (y m d h mi s : Nat) : Nat :=
  ((((y * 13 + m) * 32 + d) * 24 + h) * 60 + mi) * 60 + s

/-- Parsing by pydantic of a `datetime` field from a JSON string: an
ISO-8601 date, optionally followed by `T` and a time, optionally suffixed
with `Z`.  Returns the encoded instant. -/
def parseISODateTime (s : String) : Option Nat :=
  let l := if s.data.getLast? = some (Char.ofNat 90) then s.data.dropLast else s.data
  match splitOnChar (Char.ofNat 84) l with
  | [d] => do
      let (y, m, dd) ← parseISODate (String.mk d)
      pure (encodeInstant y m dd 0 0 0)
  | [d, t] => do
      let (y, m, dd) ← parseISODate (String.mk d)
      let (h, mi, sec) ← parseISOTime t
      pure (encodeInstant y m dd h mi sec)
  | _ => Option.none

/-- models.py `Article`: the validated value object.  `webPublicationDate`
is the parsed `datetime` instant (encoded as a numeral, see
`encodeInstant`). -/
structure Article where
  webPublicationDate : Nat
  webTitle : String
  webUrl : String
  content_preview : Option String := Option.none
deriving DecidableEq, Repr

/-- A raw field as it arrives from a JSON payload: absent, or a string. -/
inductive FieldVal where
  | missing
  | str (s : String)
deriving DecidableEq, Repr

/-- pydantic validation of `Article` per the annotations in models.py:
`webPublicationDate : datetime` must be present and parse as an ISO-8601
instant; `webTitle : str` and `webUrl : str` must be present strings (no
further constraint — in particular no non-emptiness check);
`content_preview : str | None = None` defaults to `None`. -/
def Article.validate (webPublicationDate webTitle webUrl content_preview : FieldVal) :
    Except PyErr Article :=
  match webPublicationDate, webTitle, webUrl with
  | .str ds, .str t, .str u =>
      match parseISODateTime ds with
      | some ts =>
          .ok { webPublicationDate := ts, webTitle := t, webUrl := u,
                content_preview :=
                  match content_preview with
                  | .str p => some p
                  | .missing => Option.none }
      | Option.none => .error (.validationError "webPublicationDate")
  | _, _, _ => .error (.validationError "missing required field")

/-- The query parameters guardian_client.py builds for its single GET
request (`api-key`, `q`, `page-size`, `order-by`, optional `from-date`). -/
structure HttpParams where
  apiKey : String
  q : String
  pageSize : Nat
  orderBy : String
  fromDate : Option String
deriving DecidableEq, Repr

/-- One result item of the provider JSON body
(`data["response"]["results"]`), before Article validation. -/
structure ProviderItem where
  webPublicationDate : FieldVal
  webTitle : FieldVal
  webUrl : FieldVal
deriving DecidableEq, Repr

/-- The provider HTTP response as guardian_client.py consumes it:
the status code, and the parsed `data.get("response", \x7b\x7d).get("results", [])`
list of the success body. -/
structure HttpResponse where
  status_code : Nat
  results : List ProviderItem
deriving Repr

/-- Article construction in the list comprehension of `GuardianClient.search`:
the three provider fields, `content_preview` left at its default. -/
def articleOfItem (item : ProviderItem) : Except PyErr Article :=
  Article.validate item.webPublicationDate item.webTitle item.webUrl .missing

/-- Insert an article into a list that is already sorted by publication
timestamp descending, before the first strictly older entry (so an
earlier input article stays before equal-timestamp later ones, as
the stable Python `list.sort` does). -/
def insertDesc (a : Article) : List Article → List Article
  | [] => [a]
  | b :: rest =>
      if b.webPublicationDate ≤ a.webPublicationDate then a :: b :: rest
      else b :: insertDesc a rest

/-- The call `articles.sort(key=lambda a: a.webPublicationDate, reverse=True)` of
guardian_client.py line 88: a stable sort by publication timestamp
descending, written as insertion sort. -/
def sortByDateDesc : List Article → List Article
  | [] => []
  | a :: rest => insertDesc a (sortByDateDesc rest)

namespace GuardianClient

/-- The body of guardian_client.py `search` after the argument checks have
passed and `query` is known to be the string `s`: build the params, issue
the one GET request (`provider` is the network), classify the status, map
items to Articles (one failure aborts the whole call), re-sort newest
first and truncate to 10.  The second component lists the requests
issued. -/
def searchRequest (api_key : String) (provider : HttpParams → HttpResponse)
    (s : String) (date_from : PyVal) :
    Except PyErr (List Article) × List HttpParams :=
  if !date_from.isNone && !date_from.isinstanceDate then
    (.error (.typeError "date_from must be a date object"), [])
  else
    let params : HttpParams :=
      { apiKey := api_key, q := s, pageSize := 10, orderBy := "newest",
        fromDate := if date_from.isNone then Option.none else some date_from.isoformat }
    let response := provider params
    if response.status_code = 429 then
      (.error (.rateLimitError "Rate limit exceeded"), [params])
    else if response.status_code ≥ 400 then
      (.error (.guardianAPIError ("Guardian API error: " ++ toString response.status_code)
        (some response.status_code)), [params])
    else
      match response.results.mapM articleOfItem with
      | .error e => (.error e, [params])
      | .ok articles =>
          (.ok ((sortByDateDesc articles).take 10), [params])

/-- guardian_client.py `GuardianClient.search`.  The leading argument
checks mirror the Python control flow: `if not query or not
query.strip(): raise ValueError(...)` — a falsy `query` raises at once, a
truthy non-string raises `AttributeError` at the `.strip()` call, a
whitespace-only string raises `ValueError`; then `date_from`, when not
`None`, must be a `date` instance or `TypeError` is raised.  All of this
happens before any request is issued (the returned request list is then
empty). -/
def search (api_key : String) (provider : HttpParams → HttpResponse)
    (query : PyVal) (date_from : PyVal) :
    Except PyErr (List Article) × List HttpParams :=
  if query.truthy = false then
    (.error (.valueError "search term must not be empty"), [])
  else
    match query with
    | .str s =>
        if pyStrip s = "" then
          (.error (.valueError "search term must not be empty"), [])
        else
          searchRequest api_key provider s date_from
    | _ => (.error (.attributeError "strip"), [])

end GuardianClient

/-- The botocore `ClientError` raised by the `put_record` sink call. -/
structure ClientError where
  msg : String
deriving DecidableEq, Repr

/-- One attempted `put_record` call: target stream, byte length of the
serialized payload, partition key. -/
structure SinkCall where
  streamName : String
  dataSize : Nat
  partitionKey : String
deriving DecidableEq, Repr

namespace KinesisPublisher

/-- publisher.py `MAX_RECORD_SIZE = 1024 * 1024`. -/
def MAX_RECORD_SIZE : Nat := 1024 * 1024

/-- publisher.py `_publish_single`: serialize (`dumpSize` is the byte
length of `article.model_dump_json().encode("utf-8")`, computed by
pydantic), reject oversized records before any sink call, otherwise
attempt the `put_record` and wrap a `ClientError` into a
`PublisherError` whose message embeds the stream name and the cause.
The second component lists the sink calls attempted. -/
def publishSingle (stream_name : String) (dumpSize : Article → Nat)
    (sink : SinkCall → Except ClientError Unit) (article : Article) :
    Except PyErr Unit × List SinkCall :=
  let size := dumpSize article
  if size > MAX_RECORD_SIZE then
    (.error (.recordTooLargeError size), [])
  else
    let call : SinkCall :=
      { streamName := stream_name, dataSize := size, partitionKey := article.webUrl }
    match sink call with
    | .ok _ => (.ok (), [call])
    | .error e =>
        (.error (.publisherError
          ("Failed to publish to stream \x27" ++ stream_name ++ "\x27: " ++ e.msg)
          (some e.msg)), [call])

/-- The `for article in articles` loop of publisher.py `publish`:
sequential, incrementing `published_count` after each success, aborting
on the first raised condition. -/
def publishLoop (stream_name : String) (dumpSize : Article → Nat)
    (sink : SinkCall → Except ClientError Unit) :
    List Article → Except PyErr Nat × List SinkCall
  | [] => (.ok 0, [])
  | article :: rest =>
      match publishSingle stream_name dumpSize sink article with
      | (.error e, log) => (.error e, log)
      | (.ok _, log) =>
          match publishLoop stream_name dumpSize sink rest with
          | (.ok n, log2) => (.ok (n + 1), log ++ log2)
          | (.error e, log2) => (.error e, log ++ log2)

/-- The `Article | list[Article]` union argument of `publish`. -/
inductive ArticlesArg where
  | one (a : Article)
  | many (articles : List Article)

/-- publisher.py `publish`: normalize a single Article to a one-element
list, return 0 for an empty list before the loop, else run the loop. -/
def publish (stream_name : String) (dumpSize : Article → Nat)
    (sink : SinkCall → Except ClientError Unit) (articles : ArticlesArg) :
    Except PyErr Nat × List SinkCall :=
  let as :=
    match articles with
    | .one a => [a]
    | .many l => l
  if as.isEmpty then (.ok 0, [])
  else publishLoop stream_name dumpSize sink as

end KinesisPublisher

/-- The return value of orchestrator.py `run`. -/
structure RunResult where
  articles_found : Nat
  articles_published : Nat
deriving DecidableEq, Repr

/-- orchestrator.py `run`: call `search` on the client, count the results,
publish only a non-empty list, assemble the counts.  Exceptions from
either collaborator propagate unchanged through the `Except` channel.
The second component lists the publisher invocations made. -/
def run (searchFn : PyVal → PyVal → Except PyErr (List Article))
    (publishFn : List Article → Except PyErr Nat)
    (search_term date_from : PyVal) :
    Except PyErr RunResult × List (List Article) :=
  match searchFn search_term date_from with
  | .error e => (.error e, [])
  | .ok articles =>
      if articles.isEmpty then
        (.ok { articles_found := articles.length, articles_published := 0 }, [])
      else
        match publishFn articles with
        | .error e => (.error e, [articles])
        | .ok n =>
            (.ok { articles_found := articles.length, articles_published := n },
             [articles])

/-- A Lambda response: `statusCode` and the JSON-encoded `body`. -/
structure LambdaResponse where
  statusCode : Nat
  body : String
deriving DecidableEq, Repr

namespace Handler

/-- handler.py `_error_response`: `json.dumps(\x7b"error": message\x7d)`. -/
def errorResponse (status_code : Nat) (message : String) : LambdaResponse :=
  { statusCode := status_code,
    body := "\x7b\"error\": \"" ++ message ++ "\"\x7d" }

/-- handler.py `_success_response`: `json.dumps(result)` for the
two-count dictionary of the orchestrator. -/
def successResponse (result : RunResult) : LambdaResponse :=
  { statusCode := 200,
    body := "\x7b\"articles_found\": " ++ toString result.articles_found ++
      ", \"articles_published\": " ++ toString result.articles_published ++ "\x7d" }

/-- The three outcomes of handler.py `_parse_date`: a parsed date, `None`
for a missing value, or the `False` sentinel for a malformed string. -/
inductive DateParse where
  | parsed (d : PyVal)
  | absent
  | invalid
deriving DecidableEq, Repr

/-- handler.py `_parse_date`: `None` passes through; a string goes through
`date.fromisoformat`, whose `ValueError` is turned into the `False`
sentinel; a non-string makes `date.fromisoformat` raise `TypeError`,
which `_parse_date` does not catch. -/
def parseDate (value : PyVal) : Except PyErr DateParse :=
  match value with
  | .none => .ok .absent
  | .str s =>
      match parseISODate s with
      | some (y, m, d) => .ok (.parsed (.pydate y m d))
      | Option.none => .ok .invalid
  | _ => .error (.typeError "fromisoformat: argument must be str")

/-- handler.py `handler`: short-circuit on a captured initialization
error; reject a falsy or whitespace-only `str(search_term)`; parse
`date_from` (an uncaught `TypeError` from `_parse_date` escapes the
handler, hence the outer `Except`); call the orchestrator and map its
exceptions — `GuardianAPIError` to its own truthy `status_code` or 500,
`PublisherError` to 500, anything else to 500. -/
def handler (initResultError : Option PyErr)
    (runFn : PyVal → PyVal → Except PyErr RunResult)
    (search_term date_from : PyVal) : Except PyErr LambdaResponse :=
  if initResultError.isSome then
    .ok (errorResponse 500 "Service configuration error")
  else if search_term.truthy = false || pyStrip search_term.pyStr = "" then
    .ok (errorResponse 400 "search_term is required")
  else
    match parseDate date_from with
    | .error e => .error e
    | .ok .invalid => .ok (errorResponse 400 "Invalid date format. Use YYYY-MM-DD.")
    | .ok parse =>
        let dfVal :=
          match parse with
          | .parsed d => d
          | _ => PyVal.none
        match runFn search_term dfVal with
        | .ok result => .ok (successResponse result)
        | .error e =>
            if e.isGuardianAPIError then
              .ok (errorResponse
                (match e.status_code with
                 | some s => if s ≠ 0 then s else 500
                 | Option.none => 500)
                "Guardian API error")
            else if e.isPublisherError then
              .ok (errorResponse 500 "Publishing failed")
            else
              .ok (errorResponse 500 "Internal server error")

end Handler

/-- config.py `Config` as the CLI consumes it: the provider API key and
the sink stream name. -/
structure Config where
  guardian_api_key : String
  kinesis_stream_name : String
deriving DecidableEq, Repr

/-- What a CLI invocation leaves behind: the exit code and the lines
echoed to stdout resp. stderr. -/
structure CliOutcome where
  exitCode : Nat
  stdoutLines : List String
  stderrLines : List String
deriving DecidableEq, Repr

namespace Cli

/-- cli.py `main` after argument parsing: load configuration (exit 1 with
`Configuration error: ...` on failure), run the pipeline built from the
configuration, echo the counts on success, and on each exception class
echo its dedicated prefix followed by `str(e)` and exit 1. -/
def main (configResult : Except PyErr Config)
    (pipeline : Config → Except PyErr RunResult)
    (search_term : String) : CliOutcome :=
  match configResult with
  | .error e => { exitCode := 1, stdoutLines := [],
                  stderrLines := ["Configuration error: " ++ e.str] }
  | .ok config =>
      match pipeline config with
      | .ok result =>
          { exitCode := 0,
            stdoutLines :=
              ["Found " ++ toString result.articles_found ++ " articles for \"" ++
                 search_term ++ "\"",
               "Published " ++ toString result.articles_published ++ " records to " ++
                 config.kinesis_stream_name],
            stderrLines := [] }
      | .error e =>
          if e.isGuardianAPIError then
            { exitCode := 1, stdoutLines := [],
              stderrLines := ["Guardian API error: " ++ e.str] }
          else if e.isPublisherError then
            { exitCode := 1, stdoutLines := [],
              stderrLines := ["Publishing failed: " ++ e.str] }
          else
            { exitCode := 1, stdoutLines := [],
              stderrLines := ["Unexpected error: " ++ e.str] }

end Cli

/-- The end-to-end pipeline the adapters invoke: orchestrator `run` wired
to the real `GuardianClient.search` and `KinesisPublisher.publish`
(result component only; the effect logs are examined through the
component functions themselves). -/
def pipelineRun (api_key : String) (provider : HttpParams → HttpResponse)
    (stream_name : String) (dumpSize : Article → Nat)
    (sink : SinkCall → Except ClientError Unit)
    (search_term date_from : PyVal) : Except PyErr RunResult :=
  (run (fun q d => (GuardianClient.search api_key provider q d).1)
       (fun articles =>
         (KinesisPublisher.publish stream_name dumpSize sink (.many articles)).1)
       search_term date_from).1

/-- Concrete provider item used by witnesses. -/
def wItem (ds t u : String) : ProviderItem :=
  { webPublicationDate := .str ds, webTitle := .str t, webUrl := .str u }

/-- A provider answering every request with three well-formed items in a
non-sorted order. -/
def wProvider : HttpParams → HttpResponse := fun _ =>
  { status_code := 200,
    results := [wItem "2023-11-20T08:00:00Z" "Older" "https://a",
                wItem "2023-11-21T11:11:31Z" "Newest" "https://b",
                wItem "2023-11-21T09:00:00Z" "Middle" "https://c"] }

/-- The articles the `wProvider` items map to, newest first. -/
def wSorted : List Article :=
  [{ webPublicationDate := encodeInstant 2023 11 21 11 11 31,
     webTitle := "Newest", webUrl := "https://b" },
   { webPublicationDate := encodeInstant 2023 11 21 9 0 0,
     webTitle := "Middle", webUrl := "https://c" },
   { webPublicationDate := encodeInstant 2023 11 20 8 0 0,
     webTitle := "Older", webUrl := "https://a" }]

/-- Small witness articles for the publisher theorems. -/
def wArtA : Article := { webPublicationDate := 1, webTitle := "A", webUrl := "https://a" }

/-- See `wArtA`. -/
def wArtB : Article := { webPublicationDate := 2, webTitle := "B", webUrl := "https://b" }

/-- A witness article the serializer below treats as oversized. -/
def wArtBig : Article :=
  { webPublicationDate := 3, webTitle := "Big", webUrl := "https://big" }

/-- A witness serializer: every article is 10 bytes except `wArtBig`,
which is 2,000,000 bytes. -/
def wDump : Article → Nat := fun a => if a.webTitle = "Big" then 2000000 else 10

/-- A sink accepting every append. -/
def wSinkOk : SinkCall → Except ClientError Unit := fun _ => .ok ()

/-- The Article produced from well-formed raw fields in the validation
witness. -/
def wArtW : Article :=
  { webPublicationDate := encodeInstant 2024 6 1 12 0 0,
    webTitle := "Title", webUrl := "https://u" }

/-- Provider used by the leak analysis: one well-formed item. -/
def w8Provider : HttpParams → HttpResponse := fun _ =>
  { status_code := 200,
    results := [wItem "2024-01-01T00:00:00Z" "T" "https://u"] }

/-- A sink failing every append with the given underlying cause. -/
def wSinkFail (cause : String) : SinkCall → Except ClientError Unit :=
  fun _ => .error { msg := cause }

/-- The CLI outcome of a full run against `w8Provider` and a sink
failing with `cause`, with stream name `mystream`: the composition of
config loading, the real client, the real publisher, the orchestrator
and the CLI error mapping. -/
def wCliRun (cause : String) : CliOutcome :=
  Cli.main (.ok { guardian_api_key := "key", kinesis_stream_name := "mystream" })
    (fun config =>
      pipelineRun config.guardian_api_key w8Provider config.kinesis_stream_name
        (fun _ => 10) (wSinkFail cause) (.str "q") .none)
    "q"

/-! ## Lemmas about the defensive sort -/

theorem mem_insertDesc {a x : Article} {l : List Article} :
    x ∈ insertDesc a l ↔ x = a ∨ x ∈ l := by
  induction l with
  | nil => simp [insertDesc]
  | cons b rest ih =>
      by_cases h : b.webPublicationDate ≤ a.webPublicationDate
      · simp [insertDesc, h]
      · simp [insertDesc, h, ih]
        tauto

theorem pairwise_insertDesc {a : Article} {l : List Article}
    (h : l.Pairwise (fun x y => y.webPublicationDate ≤ x.webPublicationDate)) :
    (insertDesc a l).Pairwise (fun x y => y.webPublicationDate ≤ x.webPublicationDate) := by
  induction l with
  | nil => simp [insertDesc]
  | cons b rest ih =>
      rcases List.pairwise_cons.mp h with ⟨hb, hrest⟩
      by_cases hba : b.webPublicationDate ≤ a.webPublicationDate
      · rw [insertDesc, if_pos hba]
        refine List.pairwise_cons.mpr ⟨?_, h⟩
        intro x hx
        rcases List.mem_cons.mp hx with hxb | hxr
        · subst hxb; exact hba
        · exact le_trans (hb x hxr) hba
      · rw [insertDesc, if_neg hba]
        refine List.pairwise_cons.mpr ⟨?_, ih hrest⟩
        intro x hx
        rcases mem_insertDesc.mp hx with hxa | hxr
        · subst hxa; exact le_of_not_le hba
        · exact hb x hxr

theorem pairwise_sortByDateDesc (l : List Article) :
    (sortByDateDesc l).Pairwise (fun x y => y.webPublicationDate ≤ x.webPublicationDate) := by
  induction l with
  | nil => simp [sortByDateDesc]
  | cons a rest ih => exact pairwise_insertDesc ih

/-- Article construction from a provider item fails, if at all, with a
pydantic validation error — never with a `TypeError`. -/
theorem articleOfItem_error_validation (it : ProviderItem) (e : PyErr)
    (h : articleOfItem it = .error e) : ∃ msg, e = .validationError msg := by
  unfold articleOfItem Article.validate at h
  split at h
  · split at h
    · simp at h
    · simp at h
      exact ⟨_, h.symm⟩
  · simp at h
    exact ⟨_, h.symm⟩

/-- Mapping provider items to Articles fails, if at all, with a pydantic
validation error. -/
theorem mapM_articleOfItem_error (items : List ProviderItem) (e : PyErr)
    (h : items.mapM articleOfItem = .error e) : ∃ msg, e = .validationError msg := by
  induction items with
  | nil => simp [List.mapM_nil, List.mapM.loop, pure, Except.pure] at h
  | cons it rest ih =>
      rw [List.mapM_cons] at h
      cases hit : articleOfItem it with
      | error e2 =>
          rw [hit] at h
          simp [Bind.bind, Except.bind] at h
          exact h ▸ articleOfItem_error_validation it e2 hit
      | ok a =>
          rw [hit] at h
          simp only [Bind.bind, Except.bind] at h
          cases hrest : rest.mapM articleOfItem with
          | error e3 =>
              rw [hrest] at h
              simp at h
              exact ih (h ▸ hrest)
          | ok l =>
              rw [hrest] at h
              simp [pure, Except.pure] at h

/-! ## Claim theorems -/

/-- C1: the orchestrator invokes the publisher only after a non-empty
search result: a condition raised by `client.search` propagates unchanged
and the publisher is never invoked; a search returning an empty sequence
yields `\x7barticles_found: 0, articles_published: 0\x7d` without invoking the
publisher. -/
theorem run_search_gate
    (searchFn : PyVal → PyVal → Except PyErr (List Article))
    (publishFn : List Article → Except PyErr Nat)
    (search_term date_from : PyVal) :
    (∀ e, searchFn search_term date_from = .error e →
      run searchFn publishFn search_term date_from = (.error e, [])) ∧
    (searchFn search_term date_from = .ok [] →
      run searchFn publishFn search_term date_from =
        (.ok { articles_found := 0, articles_published := 0 }, [])) := by
  constructor
  · intro e h
    simp [run, h]
  · intro h
    simp [run, h]

/-- Witness for C1 at concrete collaborators: a failing search propagates
its condition with no publisher call, and an empty search yields the zero
counts with no publisher call. -/
theorem run_search_gate_witness :
    run (fun _ _ => .error (.valueError "boom")) (fun _ => .ok 7) .none .none =
      (.error (.valueError "boom"), []) ∧
    run (fun _ _ => .ok []) (fun _ => .ok 7) .none .none =
      (.ok { articles_found := 0, articles_published := 0 }, []) :=
  ⟨(run_search_gate (fun _ _ => .error (.valueError "boom")) (fun _ => .ok 7)
      .none .none).1 (.valueError "boom") rfl,
   (run_search_gate (fun _ _ => .ok []) (fun _ => .ok 7) .none .none).2 rfl⟩

/-- C5: an empty or whitespace-only query makes `GuardianClient.search`
fail with the `ValueError` precondition violation before any network
request is issued, regardless of `date_from`. -/
theorem search_blank_query_no_request
    (api_key : String) (provider : HttpParams → HttpResponse)
    (s : String) (date_from : PyVal) (h : pyStrip s = "") :
    GuardianClient.search api_key provider (.str s) date_from =
      (.error (.valueError "search term must not be empty"), []) := by
  by_cases hs : s = ""
  · subst hs
    simp [GuardianClient.search, PyVal.truthy]
  · simp [GuardianClient.search, PyVal.truthy, hs, h]

/-- Witness for C5: the whitespace-only query `"   "` with a `date_from`
supplied fails with `ValueError` and issues no request. -/
theorem search_blank_query_no_request_witness :
    (pyStrip "   " = "") ∧
    GuardianClient.search "key" (fun _ => { status_code := 200, results := [] })
      (.str "   ") (.pydate 2024 1 1) =
      (.error (.valueError "search term must not be empty"), []) :=
  ⟨by decide,
   search_blank_query_no_request "key" (fun _ => { status_code := 200, results := [] })
     "   " (.pydate 2024 1 1) (by decide)⟩

/-- C6: with a non-empty query, a `date_from` that is provided (not
`None`) but is not a `date` instance — for example a plain string — makes
`GuardianClient.search` raise `TypeError` before any network request is
issued. -/
theorem search_nondate_datefrom_typeerror
    (api_key : String) (provider : HttpParams → HttpResponse)
    (s : String) (hs : pyStrip s ≠ "") (date_from : PyVal)
    (hn : date_from.isNone = false) (hd : date_from.isinstanceDate = false) :
    GuardianClient.search api_key provider (.str s) date_from =
      (.error (.typeError "date_from must be a date object"), []) := by
  have hs' : s ≠ "" := by
    intro h
    subst h
    exact hs rfl
  simp [GuardianClient.search, PyVal.truthy, hs', hs,
        GuardianClient.searchRequest, hn, hd]

/-- Witness for C6: query `"climate"` with `date_from` the plain string
`"2024-01-01"` raises `TypeError` with no request issued. -/
theorem search_nondate_datefrom_typeerror_witness :
    (pyStrip "climate" ≠ "") ∧ (PyVal.str "2024-01-01").isNone = false ∧
    (PyVal.str "2024-01-01").isinstanceDate = false ∧
    GuardianClient.search "key" (fun _ => { status_code := 200, results := [] })
      (.str "climate") (.str "2024-01-01") =
      (.error (.typeError "date_from must be a date object"), []) :=
  ⟨by decide, rfl, rfl,
   search_nondate_datefrom_typeerror "key"
     (fun _ => { status_code := 200, results := [] })
     "climate" (by decide) (.str "2024-01-01") rfl rfl⟩

/-- C2: whatever the provider answers (any number of items, any order),
a successful `GuardianClient.search` returns at most 10 Articles, sorted
by publication timestamp non-increasing. -/
theorem search_cap_and_sorted
    (api_key : String) (provider : HttpParams → HttpResponse)
    (query date_from : PyVal) (articles : List Article) (reqs : List HttpParams)
    (h : GuardianClient.search api_key provider query date_from = (.ok articles, reqs)) :
    articles.length ≤ 10 ∧
    articles.Pairwise (fun a b => b.webPublicationDate ≤ a.webPublicationDate) := by
  unfold GuardianClient.search at h
  split at h
  · simp at h
  · split at h
    · rename_i s
      split at h
      · simp at h
      · unfold GuardianClient.searchRequest at h
        split at h
        · simp at h
        · split at h
          all_goals (
            simp only [] at h
            split at h
            · simp at h
            · split at h
              · simp at h
              · split at h
                · simp at h
                · rename_i l heq
                  have harts : articles = (sortByDateDesc l).take 10 := by
                    have := congrArg Prod.fst h
                    simpa using this.symm
                  subst harts
                  exact ⟨List.length_take_le 10 _,
                    List.Pairwise.sublist (List.take_sublist 10 _)
                      (pairwise_sortByDateDesc l)⟩)
    · simp at h

/-- Witness for C2: `wProvider` returns three items out of order; search
returns them sorted newest-first, and the cap and sortedness hold. -/
theorem search_cap_and_sorted_witness :
    (GuardianClient.search "k" wProvider (.str "climate") .none =
      (.ok wSorted, [{ apiKey := "k", q := "climate", pageSize := 10,
                       orderBy := "newest", fromDate := Option.none }])) ∧
    wSorted.length ≤ 10 ∧
    wSorted.Pairwise (fun a b => b.webPublicationDate ≤ a.webPublicationDate) :=
  ⟨by decide,
   search_cap_and_sorted "k" wProvider (.str "climate") .none wSorted
     [{ apiKey := "k", q := "climate", pageSize := 10,
        orderBy := "newest", fromDate := Option.none }] (by decide)⟩

/-- Once the argument checks pass (`date_from` provided and an instance
of the date family), exactly one request is issued, carrying the ISO form
of the value as `from-date`, and no branch of the response handling raises a
`TypeError`. -/
theorem searchRequest_request_issued
    (api_key : String) (provider : HttpParams → HttpResponse) (s : String)
    (date_from : PyVal) (hn : date_from.isNone = false)
    (hd : date_from.isinstanceDate = true) :
    (GuardianClient.searchRequest api_key provider s date_from).2 =
      [{ apiKey := api_key, q := s, pageSize := 10, orderBy := "newest",
         fromDate := some date_from.isoformat }] ∧
    ∀ msg, (GuardianClient.searchRequest api_key provider s date_from).1 ≠
      Except.error (.typeError msg) := by
  unfold GuardianClient.searchRequest
  rw [hn, hd]
  simp only [Bool.not_false, Bool.not_true, Bool.and_false, Bool.false_eq_true,
    if_false, ite_false]
  constructor
  · split
    · rfl
    · split
      · rfl
      · split
        · rfl
        · rfl
  · intro msg
    split
    · simp
    · split
      · simp
      · split
        · rename_i e heq
          obtain ⟨m, hm⟩ := mapM_articleOfItem_error _ e heq
          subst hm
          simp
        · simp

/-- C10: a `datetime` (date-with-time) value supplied as `date_from`
passes the runtime check — `datetime` is a subtype of `date` — so
`GuardianClient.search` never raises the type-mismatch condition, and the
issued request carries the ISO form of the value, time component
included, as the `from-date` parameter. -/
theorem search_datetime_datefrom_accepted
    (api_key : String) (provider : HttpParams → HttpResponse)
    (s : String) (hs : pyStrip s ≠ "")
    (y mo d h mi sec : Nat) :
    (GuardianClient.search api_key provider (.str s) (.pydatetime y mo d h mi sec)).2 =
      [{ apiKey := api_key, q := s, pageSize := 10, orderBy := "newest",
         fromDate := some (pad4 y ++ "-" ++ pad2 mo ++ "-" ++ pad2 d ++ "T" ++
           pad2 h ++ ":" ++ pad2 mi ++ ":" ++ pad2 sec) }] ∧
    ∀ msg, (GuardianClient.search api_key provider (.str s)
      (.pydatetime y mo d h mi sec)).1 ≠ Except.error (.typeError msg) := by
  have hs' : s ≠ "" := by
    intro hh
    subst hh
    exact hs (by decide)
  have hred : GuardianClient.search api_key provider (.str s)
      (.pydatetime y mo d h mi sec) =
      GuardianClient.searchRequest api_key provider s (.pydatetime y mo d h mi sec) := by
    simp [GuardianClient.search, PyVal.truthy, hs', hs]
  rw [hred]
  have hmain := searchRequest_request_issued api_key provider s
    (.pydatetime y mo d h mi sec) rfl rfl
  exact ⟨hmain.1, hmain.2⟩

/-- Witness for C10: query `"news"` with `datetime(2024, 6, 1, 12, 30, 5)`
issues one request whose `from-date` is `2024-06-01T12:30:05`, and the
call does not raise `TypeError`. -/
theorem search_datetime_datefrom_accepted_witness :
    (pyStrip "news" ≠ "") ∧
    (GuardianClient.search "key" (fun _ => { status_code := 200, results := [] })
      (.str "news") (.pydatetime 2024 6 1 12 30 5)).2 =
      [{ apiKey := "key", q := "news", pageSize := 10, orderBy := "newest",
         fromDate := some "2024-06-01T12:30:05" }] ∧
    ∀ msg, (GuardianClient.search "key" (fun _ => { status_code := 200, results := [] })
      (.str "news") (.pydatetime 2024 6 1 12 30 5)).1 ≠
      Except.error (.typeError msg) := by
  have hmain := search_datetime_datefrom_accepted "key"
    (fun _ => { status_code := 200, results := [] }) "news" (by decide) 2024 6 1 12 30 5
  exact ⟨by decide, by simpa using hmain.1, hmain.2⟩

/-- With every record within the size bound and an accepting sink, the
publish loop appends every record in order and counts them all. -/
theorem publishLoop_all_ok (stream : String) (dumpSize : Article → Nat)
    (sink : SinkCall → Except ClientError Unit)
    (hsink : ∀ c, sink c = .ok ()) (l : List Article)
    (hsize : ∀ a ∈ l, dumpSize a ≤ KinesisPublisher.MAX_RECORD_SIZE) :
    KinesisPublisher.publishLoop stream dumpSize sink l =
      (.ok l.length,
       l.map (fun a => { streamName := stream, dataSize := dumpSize a,
                         partitionKey := a.webUrl })) := by
  induction l with
  | nil => rfl
  | cons a rest ih =>
      have ha := hsize a (List.mem_cons_self a rest)
      have hrest := fun x hx => hsize x (List.mem_cons_of_mem a hx)
      have hsingle : KinesisPublisher.publishSingle stream dumpSize sink a =
          (.ok (), [{ streamName := stream, dataSize := dumpSize a,
                      partitionKey := a.webUrl }]) := by
        simp only [KinesisPublisher.publishSingle]
        rw [if_neg (Nat.not_lt.mpr ha), hsink]
      rw [KinesisPublisher.publishLoop, hsingle, ih hrest]
      simp

/-- The publish loop stops at the first oversized record: the sink
receives exactly the records before it, and the raised condition carries
the serialized size of that record. -/
theorem publishLoop_first_oversize (stream : String) (dumpSize : Article → Nat)
    (sink : SinkCall → Except ClientError Unit)
    (hsink : ∀ c, sink c = .ok ()) (pre : List Article) (bad : Article)
    (post : List Article)
    (hpre : ∀ a ∈ pre, dumpSize a ≤ KinesisPublisher.MAX_RECORD_SIZE)
    (hbad : dumpSize bad > KinesisPublisher.MAX_RECORD_SIZE) :
    KinesisPublisher.publishLoop stream dumpSize sink (pre ++ bad :: post) =
      (.error (.recordTooLargeError (dumpSize bad)),
       pre.map (fun a => { streamName := stream, dataSize := dumpSize a,
                           partitionKey := a.webUrl })) := by
  induction pre with
  | nil =>
      have hsingle : KinesisPublisher.publishSingle stream dumpSize sink bad =
          (.error (.recordTooLargeError (dumpSize bad)), []) := by
        simp only [KinesisPublisher.publishSingle]
        rw [if_pos hbad]
      simp only [List.nil_append, List.map_nil]
      rw [KinesisPublisher.publishLoop, hsingle]
  | cons a rest ih =>
      have ha := hpre a (List.mem_cons_self a rest)
      have hrest := fun x hx => hpre x (List.mem_cons_of_mem a hx)
      have hsingle : KinesisPublisher.publishSingle stream dumpSize sink a =
          (.ok (), [{ streamName := stream, dataSize := dumpSize a,
                      partitionKey := a.webUrl }]) := by
        simp only [KinesisPublisher.publishSingle]
        rw [if_neg (Nat.not_lt.mpr ha), hsink]
      rw [List.cons_append, KinesisPublisher.publishLoop, hsingle, ih hrest]
      simp

/-- C3: with an accepting sink, `publish` on a sequence of Articles whose
serializations are all within 1,048,576 bytes returns the sequence
length; on a sequence whose first oversized Article is `bad`, it fails
with `RecordTooLarge` carrying the actual serialized size of `bad`, performs
no sink append for `bad`, and attempts no record after it. -/
theorem publish_size_gate
    (stream : String) (dumpSize : Article → Nat)
    (sink : SinkCall → Except ClientError Unit)
    (hsink : ∀ c, sink c = .ok ()) (articles : List Article) :
    ((∀ a ∈ articles, dumpSize a ≤ KinesisPublisher.MAX_RECORD_SIZE) →
      (KinesisPublisher.publish stream dumpSize sink (.many articles)).1 =
        .ok articles.length) ∧
    (∀ pre bad post, articles = pre ++ bad :: post →
      (∀ a ∈ pre, dumpSize a ≤ KinesisPublisher.MAX_RECORD_SIZE) →
      dumpSize bad > KinesisPublisher.MAX_RECORD_SIZE →
      KinesisPublisher.publish stream dumpSize sink (.many articles) =
        (.error (.recordTooLargeError (dumpSize bad)),
         pre.map (fun a => { streamName := stream, dataSize := dumpSize a,
                             partitionKey := a.webUrl }))) := by
  constructor
  · intro hall
    match articles, hall with
    | [], _ => rfl
    | a :: rest, hall =>
        show (KinesisPublisher.publishLoop stream dumpSize sink (a :: rest)).1 = _
        rw [publishLoop_all_ok stream dumpSize sink hsink (a :: rest) hall]
  · intro pre bad post harts hpre hbad
    subst harts
    have hne : (pre ++ bad :: post).isEmpty = false := by
      cases pre <;> simp
    simp only [KinesisPublisher.publish, hne, Bool.false_eq_true, if_false]
    exact publishLoop_first_oversize stream dumpSize sink hsink pre bad post hpre hbad

/-- Witness for C3: two small articles publish with count 2; inserting
the oversized `wArtBig` after `wArtA` aborts with `RecordTooLarge 2000000`
after exactly one sink append (for `wArtA`). -/
theorem publish_size_gate_witness :
    (KinesisPublisher.publish "s" wDump wSinkOk (.many [wArtA, wArtB])).1 = .ok 2 ∧
    KinesisPublisher.publish "s" wDump wSinkOk (.many [wArtA, wArtBig, wArtB]) =
      (.error (.recordTooLargeError 2000000),
       [{ streamName := "s", dataSize := 10, partitionKey := "https://a" }]) := by
  have h1 := (publish_size_gate "s" wDump wSinkOk (fun _ => rfl) [wArtA, wArtB]).1
    (by decide)
  have h2 := (publish_size_gate "s" wDump wSinkOk (fun _ => rfl)
    [wArtA, wArtBig, wArtB]).2 [wArtA] wArtBig [wArtB] rfl (by decide) (by decide)
  exact ⟨h1, by simpa using h2⟩

/-- C9: the size ceiling is a strict inequality: an Article whose
serialization is exactly 1,048,576 bytes is not rejected — `publish`
appends the record (one sink call of that exact size) and succeeds. -/
theorem publish_exact_limit_appended
    (stream : String) (dumpSize : Article → Nat)
    (sink : SinkCall → Except ClientError Unit) (a : Article)
    (hsize : dumpSize a = 1048576) (hsink : ∀ c, sink c = .ok ()) :
    KinesisPublisher.publish stream dumpSize sink (.many [a]) =
      (.ok 1, [{ streamName := stream, dataSize := 1048576,
                 partitionKey := a.webUrl }]) := by
  have h := publishLoop_all_ok stream dumpSize sink hsink [a]
    (by
      intro x hx
      rw [List.mem_singleton] at hx
      subst hx
      rw [hsize]
      norm_num [KinesisPublisher.MAX_RECORD_SIZE])
  show KinesisPublisher.publishLoop stream dumpSize sink [a] = _
  rw [h]
  simp [hsize]

/-- Witness for C9: a constant serializer of exactly 1,048,576 bytes —
the single record is appended and `publish` returns 1. -/
theorem publish_exact_limit_appended_witness :
    ((fun _ : Article => 1048576) wArtA = 1048576) ∧
    KinesisPublisher.publish "s" (fun _ => 1048576) wSinkOk (.many [wArtA]) =
      (.ok 1, [{ streamName := "s", dataSize := 1048576,
                 partitionKey := "https://a" }]) :=
  ⟨rfl, by
    simpa using publish_exact_limit_appended "s" (fun _ => 1048576) wSinkOk wArtA rfl
      (fun _ => rfl)⟩

/-- C7 counterexample: the model annotations check presence and types
only, not non-emptiness — validation accepts an empty `webTitle`, so an
Article with an empty title is constructible, refuting the claim that
every constructible Article has a non-empty title. -/
theorem article_empty_title_constructible :
    Article.validate (.str "2023-11-21T11:11:31Z") (.str "")
      (.str "https://example.com/a") .missing =
      .ok { webPublicationDate := encodeInstant 2023 11 21 11 11 31,
            webTitle := "", webUrl := "https://example.com/a",
            content_preview := Option.none } := by
  decide

/-- C7 amended: every constructible Article has all three required fields
present — the timestamp parsed from a well-formed ISO-8601 string, and
title and url present as strings — but no non-emptiness check is made on
the title (or url). -/
theorem article_validate_required_fields
    (wd wt wu cp : FieldVal) (a : Article)
    (h : Article.validate wd wt wu cp = .ok a) :
    (∃ ds, wd = .str ds ∧ parseISODateTime ds = some a.webPublicationDate) ∧
    (∃ t, wt = .str t ∧ a.webTitle = t) ∧
    (∃ u, wu = .str u ∧ a.webUrl = u) := by
  unfold Article.validate at h
  split at h
  · rename_i ds t u
    split at h
    · rename_i ts hts
      injection h with h2
      subst h2
      exact ⟨⟨ds, rfl, hts⟩, ⟨t, rfl, rfl⟩, ⟨u, rfl, rfl⟩⟩
    · simp at h
  · simp at h

/-- Witness for the amended C7: concrete well-formed raw fields validate
to `wArtW`, whose fields satisfy the required-field property. -/
theorem article_validate_required_fields_witness :
    (∃ ds, FieldVal.str "2024-06-01T12:00:00Z" = FieldVal.str ds ∧
      parseISODateTime ds = some wArtW.webPublicationDate) ∧
    (∃ t, FieldVal.str "Title" = FieldVal.str t ∧ wArtW.webTitle = t) ∧
    (∃ u, FieldVal.str "https://u" = FieldVal.str u ∧ wArtW.webUrl = u) :=
  article_validate_required_fields (.str "2024-06-01T12:00:00Z") (.str "Title")
    (.str "https://u") .missing wArtW (by decide)

/-- A publisher condition is never simultaneously a Guardian API
condition. -/
theorem isPublisherError_not_guardian (e : PyErr)
    (h : e.isPublisherError = true) : e.isGuardianAPIError = false := by
  cases e <;> simp_all [PyErr.isPublisherError, PyErr.isGuardianAPIError]

/-- C8 counterexample: two end-to-end CLI runs that differ only in the
underlying sink error produce different user-visible error text, and
that text contains both the stream name and the underlying cause. -/
theorem cli_publish_error_text_leaks :
    wCliRun "causeA" ≠ wCliRun "causeB" ∧
    (wCliRun "causeA").stderrLines =
      ["Publishing failed: Failed to publish to stream \x27mystream\x27: causeA"] := by
  decide

/-- C8 amended (the event-handler boundary): the visible handler output
is independent of the underlying publish failure — two runs that fail
with publisher conditions, whatever their messages and retained causes,
produce identical responses. -/
theorem handler_publish_error_text_uniform
    (runFn1 runFn2 : PyVal → PyVal → Except PyErr RunResult)
    (search_term date_from : PyVal)
    (h : ∀ q d, ∃ e1 e2, runFn1 q d = .error e1 ∧ e1.isPublisherError = true ∧
      runFn2 q d = .error e2 ∧ e2.isPublisherError = true) :
    Handler.handler Option.none runFn1 search_term date_from =
      Handler.handler Option.none runFn2 search_term date_from := by
  unfold Handler.handler
  split
  · rfl
  · split
    · rfl
    · split
      · rfl
      · rfl
      · rename_i parse hne heq
        cases parse with
        | parsed d =>
            obtain ⟨e1, e2, h1, hp1, h2, hp2⟩ := h search_term d
            simp [h1, h2, isPublisherError_not_guardian e1 hp1,
              isPublisherError_not_guardian e2 hp2, hp1, hp2]
        | absent =>
            obtain ⟨e1, e2, h1, hp1, h2, hp2⟩ := h search_term PyVal.none
            simp [h1, h2, isPublisherError_not_guardian e1 hp1,
              isPublisherError_not_guardian e2 hp2, hp1, hp2]
        | invalid => exact absurd rfl hne

/-- Witness for the amended C8: two concrete runs failing with different
publisher errors yield the same handler response. -/
theorem handler_publish_error_text_uniform_witness :
    Handler.handler Option.none
      (fun _ _ => .error (.publisherError "A" (some "a"))) (.str "q") .none =
    Handler.handler Option.none
      (fun _ _ => .error (.publisherError "B" (some "b"))) (.str "q") .none :=
  handler_publish_error_text_uniform
    (fun _ _ => .error (.publisherError "A" (some "a")))
    (fun _ _ => .error (.publisherError "B" (some "b"))) (.str "q") .none
    (fun _ _ => ⟨.publisherError "A" (some "a"), .publisherError "B" (some "b"),
      rfl, rfl, rfl, rfl⟩)

/-- C4, at the failing input: for the event `\x7b"search_term": 12345\x7d` the
handler returns 500 `Internal server error`, not the 400 the mapping
requires for a wrong-typed `search_term` — the handler has no type check,
the integer passes the truthiness/emptiness validation, and
`query.strip()` inside the search client raises `AttributeError`, which
the catch-all maps to 500. -/
theorem handler_wrong_typed_search_term_500 :
    Handler.handler Option.none
      (pipelineRun "key" (fun _ => { status_code := 200, results := [] }) "stream"
        (fun _ => 10) wSinkOk)
      (.int 12345) .none =
      .ok (Handler.errorResponse 500 "Internal server error") := by
  decide

end GuardianStream


